import Mathlib

/-!
Verification of the food-journal reconciliation core.

The definitions below are a shallow embedding of the application's data
model and of its persistence / reconciliation logic: the record factory
`getInitialLog`, the startup load protocol, the fold of the current record
into the history collection, the guarded history persist, the draft-slot
persist, and the entry mutation operations.  External effects (the wall
clock and the random id generator) are passed in as explicit arguments;
local storage slots are modelled as `Option`-typed values; a stored text
that fails to parse is modelled as `some none` at the slot level.
-/

/-- A logged meal entry (interface `FoodEntry` in the source). -/
structure FoodEntry where
  id : String
  source : String
  time : String
  serving : String
  calories : Int
  hungerBefore : Int
  hungerAfter : Int
deriving DecidableEq

/-- A logged miscellaneous-intake entry (interface `MiscEntry`, same shape
as `FoodEntry` in the source). -/
structure MiscEntry where
  id : String
  source : String
  time : String
  serving : String
  calories : Int
  hungerBefore : Int
  hungerAfter : Int
deriving DecidableEq

/-- A logged activity entry (interface `ActivityEntry` in the source). -/
structure ActivityEntry where
  id : String
  type : String
  duration : String
deriving DecidableEq

/-- The daily record (interface `DailyLog` in the source). -/
structure DailyLog where
  date : String
  proteinGoal : String
  totalProteinCalories : Int
  ketosis : Bool
  followedPlan : Bool
  notes : String
  waterIntake : Nat
  foodEntries : List FoodEntry
  miscEntries : List MiscEntry
  fatEntries : List String
  vegetableEntries : List String
  activities : List ActivityEntry
  supplements : List String
deriving DecidableEq

/-- The record factory (`getInitialLog` in the source). -/
def getInitialLog (date : String) : DailyLog :=
  { date := date
    proteinGoal := ""
    totalProteinCalories := 0
    ketosis := false
    followedPlan := false
    notes := ""
    waterIntake := 0
    foodEntries := []
    miscEntries := []
    fatEntries := ["", ""]
    vegetableEntries := ["", ""]
    activities := []
    supplements := [] }

/-- A parsed draft object, as read back from the `food-journal-log` storage
slot.  JSON-parsed objects may lack any of the record's fields, so every
field is optional; `none` models an absent key. -/
structure DraftLog where
  date : Option String := none
  proteinGoal : Option String := none
  totalProteinCalories : Option Int := none
  ketosis : Option Bool := none
  followedPlan : Option Bool := none
  notes : Option String := none
  waterIntake : Option Nat := none
  foodEntries : Option (List FoodEntry) := none
  miscEntries : Option (List MiscEntry) := none
  fatEntries : Option (List String) := none
  vegetableEntries : Option (List String) := none
  activities : Option (List ActivityEntry) := none
  supplements : Option (List String) := none
deriving DecidableEq

/-- The JS object spread `{ ...base, ...d }`: fields present in the draft
override the base record, absent fields keep the base record's values. -/
def mergeDraft (base : DailyLog) (d : DraftLog) : DailyLog :=
  { date := d.date.getD base.date
    proteinGoal := d.proteinGoal.getD base.proteinGoal
    totalProteinCalories := d.totalProteinCalories.getD base.totalProteinCalories
    ketosis := d.ketosis.getD base.ketosis
    followedPlan := d.followedPlan.getD base.followedPlan
    notes := d.notes.getD base.notes
    waterIntake := d.waterIntake.getD base.waterIntake
    foodEntries := d.foodEntries.getD base.foodEntries
    miscEntries := d.miscEntries.getD base.miscEntries
    fatEntries := d.fatEntries.getD base.fatEntries
    vegetableEntries := d.vegetableEntries.getD base.vegetableEntries
    activities := d.activities.getD base.activities
    supplements := d.supplements.getD base.supplements }

/-- The component state produced by the initial-load effect. -/
structure InitState where
  history : List DailyLog
  log : DailyLog
  isLoaded : Bool
deriving DecidableEq

/-- Final stage of startup: adopt the history record for today when one
exists, else the draft-derived candidate
(`parsedHistory.find(h => h.date === today)` in the source). -/
def initialLoadFinish (parsedHistory : List DailyLog) (initialLog : DailyLog)
    (today : String) : InitState :=
  match parsedHistory.find? (fun h => h.date == today) with
  | some historyEntry => ⟨parsedHistory, historyEntry, true⟩
  | none => ⟨parsedHistory, initialLog, true⟩

/-- Startup after the history slot has been read: read the draft slot,
shallow-merge it over a fresh record when its date is today.  A draft slot
value `some none` models stored text on which `JSON.parse` throws; the
`catch` block then leaves the log at its fresh initial value and still
sets `isLoaded`. -/
def initialLoadAfterHistory (parsedHistory : List DailyLog)
    (draftSlot : Option (Option DraftLog)) (today : String) : InitState :=
  match draftSlot with
  | some none => ⟨parsedHistory, getInitialLog today, true⟩
  | some (some parsed) =>
      let initialLog :=
        if parsed.date = some today then mergeDraft (getInitialLog today) parsed
        else getInitialLog today
      initialLoadFinish parsedHistory initialLog today
  | none => initialLoadFinish parsedHistory (getInitialLog today) today

/-- The initial-load effect.  `histSlot = some none` models stored history
text on which `JSON.parse` throws: the `catch` leaves the history at `[]`
and the log at its fresh initial value, and still sets `isLoaded`. -/
def initialLoad (histSlot : Option (Option (List DailyLog)))
    (draftSlot : Option (Option DraftLog)) (today : String) : InitState :=
  match histSlot with
  | some none => ⟨[], getInitialLog today, true⟩
  | some (some parsedHistory) => initialLoadAfterHistory parsedHistory draftSlot today
  | none => initialLoadAfterHistory [] draftSlot today

/-- The comparator `(a, b) => b.date.localeCompare(a.date)` used on the
history collection: descending by date key. -/
def histOrder (a b : DailyLog) : Prop := b.date ≤ a.date

instance histOrder.decRel : DecidableRel histOrder :=
  fun a b => inferInstanceAs (Decidable (b.date ≤ a.date))

instance histOrder.total : IsTotal DailyLog histOrder :=
  ⟨fun a b => le_total b.date a.date⟩

instance histOrder.trans : IsTrans DailyLog histOrder :=
  ⟨fun _ _ _ hab hbc => le_trans hbc hab⟩

/-- The history fold effect: drop any record sharing the mutated record's
date, prepend the mutated record, and re-sort descending by date. -/
def foldHistory (prev : List DailyLog) (log : DailyLog) : List DailyLog :=
  let otherDays := prev.filter (fun h => h.date != log.date)
  List.insertionSort histOrder (log :: otherDays)

/-- Four hex digits, lowercase, as produced by `JSON.stringify` for
control-character escapes. -/
def hexDigit (n : Nat) : Char :=
  if n < 10 then Char.ofNat (48 + n) else Char.ofNat (87 + n)

def hex4 (n : Nat) : String :=
  String.mk [hexDigit ((n / 4096) % 16), hexDigit ((n / 256) % 16),
             hexDigit ((n / 16) % 16), hexDigit (n % 16)]

/-- `JSON.stringify` escaping of a single character inside a string. -/
def escapeJsonChar (c : Char) : String :=
  if c = '"' then "\\\""
  else if c = '\\' then "\\\\"
  else if c = '\n' then "\\n"
  else if c = '\r' then "\\r"
  else if c = '\t' then "\\t"
  else if c = '\x08' then "\\b"
  else if c = '\x0c' then "\\f"
  else if c.toNat < 32 then "\\u" ++ hex4 c.toNat
  else String.singleton c

def jsonString (s : String) : String :=
  "\"" ++ String.join (s.toList.map escapeJsonChar) ++ "\""

def jsonArray (xs : List String) : String :=
  "[" ++ String.intercalate "," xs ++ "]"

def stringifyFoodEntry (e : FoodEntry) : String :=
  "\x7b\"id\":" ++ jsonString e.id ++
  ",\"source\":" ++ jsonString e.source ++
  ",\"time\":" ++ jsonString e.time ++
  ",\"serving\":" ++ jsonString e.serving ++
  ",\"calories\":" ++ toString e.calories ++
  ",\"hungerBefore\":" ++ toString e.hungerBefore ++
  ",\"hungerAfter\":" ++ toString e.hungerAfter ++ "\x7d"

def stringifyMiscEntry (e : MiscEntry) : String :=
  "\x7b\"id\":" ++ jsonString e.id ++
  ",\"source\":" ++ jsonString e.source ++
  ",\"time\":" ++ jsonString e.time ++
  ",\"serving\":" ++ jsonString e.serving ++
  ",\"calories\":" ++ toString e.calories ++
  ",\"hungerBefore\":" ++ toString e.hungerBefore ++
  ",\"hungerAfter\":" ++ toString e.hungerAfter ++ "\x7d"

def stringifyActivityEntry (a : ActivityEntry) : String :=
  "\x7b\"id\":" ++ jsonString a.id ++
  ",\"type\":" ++ jsonString a.type ++
  ",\"duration\":" ++ jsonString a.duration ++ "\x7d"

/-- `JSON.stringify` of a `DailyLog`, keys in declaration order. -/
def stringifyDailyLog (l : DailyLog) : String :=
  "\x7b\"date\":" ++ jsonString l.date ++
  ",\"proteinGoal\":" ++ jsonString l.proteinGoal ++
  ",\"totalProteinCalories\":" ++ toString l.totalProteinCalories ++
  ",\"ketosis\":" ++ (if l.ketosis then "true" else "false") ++
  ",\"followedPlan\":" ++ (if l.followedPlan then "true" else "false") ++
  ",\"notes\":" ++ jsonString l.notes ++
  ",\"waterIntake\":" ++ toString l.waterIntake ++
  ",\"foodEntries\":" ++ jsonArray (l.foodEntries.map stringifyFoodEntry) ++
  ",\"miscEntries\":" ++ jsonArray (l.miscEntries.map stringifyMiscEntry) ++
  ",\"fatEntries\":" ++ jsonArray (l.fatEntries.map jsonString) ++
  ",\"vegetableEntries\":" ++ jsonArray (l.vegetableEntries.map jsonString) ++
  ",\"activities\":" ++ jsonArray (l.activities.map stringifyActivityEntry) ++
  ",\"supplements\":" ++ jsonArray (l.supplements.map jsonString) ++ "\x7d"

/-- `JSON.stringify` of the history collection. -/
def stringifyHistory (hs : List DailyLog) : String :=
  jsonArray (hs.map stringifyDailyLog)

/-- The guarded history-persist effect.  The slot is the raw string stored
under `food-journal-history` (`none` when the key is absent).  The guard:
an empty in-memory collection never overwrites existing non-empty stored
content (`rawInStore && rawInStore !== '[]'`). -/
def persistHistory (history : List DailyLog) (slot : Option String) :
    Option String :=
  if history.length = 0 then
    match slot with
    | some rawInStore =>
        if rawInStore ≠ "" ∧ rawInStore ≠ "[]" then slot
        else some (stringifyHistory history)
    | none => some (stringifyHistory history)
  else some (stringifyHistory history)

/-- Session state for the mutation loop: the in-memory history, the
`food-journal-log` draft slot (parsed view), and the current record. -/
structure SessionState where
  history : List DailyLog
  draftSlot : Option DailyLog
  log : DailyLog
deriving DecidableEq

/-- One mutation of the current record followed by the reactive effect on
`[log, isLoaded]`: fold into history, and persist the record to the draft
slot exactly when its date equals today (recomputed at write time). -/
def mutateStep (today : String) (s : SessionState) (newLog : DailyLog) :
    SessionState :=
  { history := foldHistory s.history newLog
    draftSlot := if newLog.date = today then some newLog else s.draftSlot
    log := newLog }

/-- Run a sequence of mutations of the current record. -/
def runMutations (today : String) (s : SessionState) :
    List DailyLog → SessionState
  | [] => s
  | l :: ls => runMutations today (mutateStep today s l) ls

/-- The blank pending meal entry (`useState` initial value / reset value). -/
def pendingEntryReset : FoodEntry :=
  { id := "pending", source := "", time := "", serving := "", calories := 0,
    hungerBefore := 5, hungerAfter := 5 }

/-- The blank pending misc entry. -/
def pendingMiscReset : MiscEntry :=
  { id := "pending-misc", source := "", time := "", serving := "",
    calories := 0, hungerBefore := 5, hungerAfter := 5 }

/-- The blank pending activity entry. -/
def pendingActivityReset : ActivityEntry :=
  { id := "pending-activity", type := "", duration := "" }

/-- `savePendingEntry`: reject silently when the source label is empty;
otherwise assign a fresh id, default a blank time to the wall clock,
prepend to `foodEntries` and reset the pending value.  The generated id
and the formatted wall-clock time are passed in explicitly. -/
def savePendingEntry (pendingEntry : FoodEntry) (log : DailyLog)
    (newId nowTime : String) : DailyLog × FoodEntry :=
  if pendingEntry.source = "" then (log, pendingEntry)
  else
    let newEntry : FoodEntry :=
      { pendingEntry with
          id := newId
          time := if pendingEntry.time = "" then nowTime else pendingEntry.time }
    ({ log with foodEntries := newEntry :: log.foodEntries }, pendingEntryReset)

/-- `removeFoodEntry`: filter the meal sequence by id. -/
def removeFoodEntry (log : DailyLog) (id : String) : DailyLog :=
  { log with foodEntries := log.foodEntries.filter (fun e => e.id != id) }

/-- `savePendingActivity`: reject silently when the type label is empty;
otherwise assign a fresh id, prepend to `activities`, reset the pending
value. -/
def savePendingActivity (pendingActivity : ActivityEntry) (log : DailyLog)
    (newId : String) : DailyLog × ActivityEntry :=
  if pendingActivity.type = "" then (log, pendingActivity)
  else
    let newEntry : ActivityEntry := { pendingActivity with id := newId }
    ({ log with activities := newEntry :: log.activities },
     pendingActivityReset)

/-- `removeActivity`: filter the activity sequence by id. -/
def removeActivity (log : DailyLog) (id : String) : DailyLog :=
  { log with activities := log.activities.filter (fun a => a.id != id) }

/-- `savePendingMisc`: same pattern as `savePendingEntry` on the misc
sequence. -/
def savePendingMisc (pendingMisc : MiscEntry) (log : DailyLog)
    (newId nowTime : String) : DailyLog × MiscEntry :=
  if pendingMisc.source = "" then (log, pendingMisc)
  else
    let newEntry : MiscEntry :=
      { pendingMisc with
          id := newId
          time := if pendingMisc.time = "" then nowTime else pendingMisc.time }
    ({ log with miscEntries := newEntry :: log.miscEntries }, pendingMiscReset)

/-- `removeMiscEntry`: filter the misc sequence by id. -/
def removeMiscEntry (log : DailyLog) (id : String) : DailyLog :=
  { log with miscEntries := log.miscEntries.filter (fun e => e.id != id) }

/-- The water pip click handler:
`waterIntake: i + 1 === log.waterIntake ? i : i + 1`. -/
def waterPipClick (log : DailyLog) (i : Nat) : DailyLog :=
  { log with waterIntake := if i + 1 = log.waterIntake then i else i + 1 }

/-- C7: clicking water pip index i (0-based) sets waterIntake to i when the
current count already equals i+1, and to i+1 otherwise; in particular from
waterIntake = 3, pip 2 yields 2 and pip 5 yields 6. -/
theorem water_toggle_spec (log : DailyLog) (i : Nat)
    (_hw : log.waterIntake ≤ 8) (_hi : i ≤ 7) :
    (log.waterIntake = i + 1 → (waterPipClick log i).waterIntake = i) ∧
    (log.waterIntake ≠ i + 1 → (waterPipClick log i).waterIntake = i + 1) ∧
    (log.waterIntake = 3 → i = 2 → (waterPipClick log i).waterIntake = 2) ∧
    (log.waterIntake = 3 → i = 5 → (waterPipClick log i).waterIntake = 6) := by
  refine ⟨fun h => ?_, fun h => ?_, fun h1 h2 => ?_, fun h1 h2 => ?_⟩
  · show (if i + 1 = log.waterIntake then i else i + 1) = i
    rw [h]; simp
  · show (if i + 1 = log.waterIntake then i else i + 1) = i + 1
    rw [if_neg (fun hc => h hc.symm)]
  · show (if i + 1 = log.waterIntake then i else i + 1) = 2
    subst h2; simp [h1]
  · show (if i + 1 = log.waterIntake then i else i + 1) = 6
    subst h2; simp [h1]

/-- Witness for C7: the concrete scenario from the spec, waterIntake = 3
and pip index 2. -/
theorem water_toggle_witness :
    ({ getInitialLog "2024-01-01" with waterIntake := 3 } : DailyLog).waterIntake ≤ 8 ∧
    (2 : Nat) ≤ 7 ∧
    (waterPipClick { getInitialLog "2024-01-01" with waterIntake := 3 } 2).waterIntake = 2 :=
  ⟨by decide, by decide,
   (water_toggle_spec { getInitialLog "2024-01-01" with waterIntake := 3 } 2
      (by decide) (by decide)).2.2.1 rfl rfl⟩

/-- C5 counterexample: the factory does not return empty sequences for all
sequence fields; fatEntries and vegetableEntries are initialized to two
empty strings each. -/
theorem getInitialLog_sequences_not_all_empty :
    (getInitialLog "2024-01-01").fatEntries ≠ [] ∧
    (getInitialLog "2024-01-01").vegetableEntries ≠ [] := by
  decide

/-- C5 amended: the factory returns a record whose scalar fields are all at
the defined defaults and whose foodEntries, miscEntries, activities and
supplements sequences are empty, while fatEntries and vegetableEntries are
each initialized to two empty strings; it is pure and idempotent. -/
theorem getInitialLog_spec (date : String) :
    (∀ d2 : String, d2 = date → getInitialLog d2 = getInitialLog date) ∧
    (getInitialLog date).date = date ∧
    (getInitialLog date).proteinGoal = "" ∧
    (getInitialLog date).totalProteinCalories = 0 ∧
    (getInitialLog date).ketosis = false ∧
    (getInitialLog date).followedPlan = false ∧
    (getInitialLog date).notes = "" ∧
    (getInitialLog date).waterIntake = 0 ∧
    (getInitialLog date).foodEntries = [] ∧
    (getInitialLog date).miscEntries = [] ∧
    (getInitialLog date).fatEntries = ["", ""] ∧
    (getInitialLog date).vegetableEntries = ["", ""] ∧
    (getInitialLog date).activities = [] ∧
    (getInitialLog date).supplements = [] := by
  exact ⟨fun d2 h => by rw [h], rfl, rfl, rfl, rfl, rfl, rfl, rfl, rfl, rfl,
         rfl, rfl, rfl, rfl⟩

/-- Witness for C5 (amended): two calls with the same key return equal
records. -/
theorem getInitialLog_spec_witness :
    ("2024-01-01" : String) = "2024-01-01" ∧
    getInitialLog "2024-01-01" = getInitialLog "2024-01-01" :=
  ⟨rfl, (getInitialLog_spec "2024-01-01").1 "2024-01-01" rfl⟩

/-- C8: submitting an entry whose required label is empty is a silent
no-op for all three entry kinds: the record and the pending staging value
are both unchanged. -/
theorem empty_label_noop (log : DailyLog) (pe : FoodEntry) (pm : MiscEntry)
    (pa : ActivityEntry) (newId nowTime : String) :
    (pe.source = "" → savePendingEntry pe log newId nowTime = (log, pe)) ∧
    (pm.source = "" → savePendingMisc pm log newId nowTime = (log, pm)) ∧
    (pa.type = "" → savePendingActivity pa log newId = (log, pa)) := by
  refine ⟨fun h => ?_, fun h => ?_, fun h => ?_⟩ <;>
    simp [savePendingEntry, savePendingMisc, savePendingActivity, h]

/-- Witness for C8: the blank pending meal entry has an empty source and
its submission changes nothing. -/
theorem empty_label_noop_witness :
    pendingEntryReset.source = "" ∧
    savePendingEntry pendingEntryReset (getInitialLog "2024-01-01") "id1" "12:00"
      = (getInitialLog "2024-01-01", pendingEntryReset) :=
  ⟨rfl,
   (empty_label_noop (getInitialLog "2024-01-01") pendingEntryReset
      pendingMiscReset pendingActivityReset "id1" "12:00").1 rfl⟩

/-- C6: adding a pending meal entry with a non-empty source and a blank
time grows foodEntries by one, places the new entry at index 0 with its
time set to the supplied wall-clock string and all other pending fields
preserved, and resets the pending staging value to its blank defaults. -/
theorem save_pending_entry_spec (pe : FoodEntry) (log : DailyLog)
    (newId nowTime : String) (hsrc : pe.source ≠ "") (htime : pe.time = "") :
    (savePendingEntry pe log newId nowTime).1.foodEntries.length
      = log.foodEntries.length + 1 ∧
    (savePendingEntry pe log newId nowTime).1.foodEntries.head? = some
      { id := newId, source := pe.source, time := nowTime,
        serving := pe.serving, calories := pe.calories,
        hungerBefore := pe.hungerBefore, hungerAfter := pe.hungerAfter } ∧
    (savePendingEntry pe log newId nowTime).2 = pendingEntryReset := by
  simp [savePendingEntry, hsrc, htime]

/-- Witness for C6: the spec's end-to-end example, adding
source "Eggs", calories 140, hungerBefore 6, hungerAfter 3 with blank
time. -/
theorem save_pending_entry_witness :
    (FoodEntry.mk "pending" "Eggs" "" "" 140 6 3).source ≠ "" ∧
    (FoodEntry.mk "pending" "Eggs" "" "" 140 6 3).time = "" ∧
    ((savePendingEntry (FoodEntry.mk "pending" "Eggs" "" "" 140 6 3)
        (getInitialLog "2024-01-01") "id1" "09:30").1.foodEntries.length
      = (getInitialLog "2024-01-01").foodEntries.length + 1 ∧
     (savePendingEntry (FoodEntry.mk "pending" "Eggs" "" "" 140 6 3)
        (getInitialLog "2024-01-01") "id1" "09:30").1.foodEntries.head? = some
       { id := "id1", source := "Eggs", time := "09:30", serving := "",
         calories := 140, hungerBefore := 6, hungerAfter := 3 } ∧
     (savePendingEntry (FoodEntry.mk "pending" "Eggs" "" "" 140 6 3)
        (getInitialLog "2024-01-01") "id1" "09:30").2 = pendingEntryReset) :=
  ⟨by decide, rfl,
   save_pending_entry_spec (FoodEntry.mk "pending" "Eggs" "" "" 140 6 3)
     (getInitialLog "2024-01-01") "id1" "09:30" (by decide) rfl⟩

/-- All DailyLog fields other than foodEntries agree. -/
def eqExceptFood (a b : DailyLog) : Prop :=
  a.date = b.date ∧ a.proteinGoal = b.proteinGoal ∧
  a.totalProteinCalories = b.totalProteinCalories ∧ a.ketosis = b.ketosis ∧
  a.followedPlan = b.followedPlan ∧ a.notes = b.notes ∧
  a.waterIntake = b.waterIntake ∧ a.miscEntries = b.miscEntries ∧
  a.fatEntries = b.fatEntries ∧ a.vegetableEntries = b.vegetableEntries ∧
  a.activities = b.activities ∧ a.supplements = b.supplements

/-- All DailyLog fields other than miscEntries agree. -/
def eqExceptMisc (a b : DailyLog) : Prop :=
  a.date = b.date ∧ a.proteinGoal = b.proteinGoal ∧
  a.totalProteinCalories = b.totalProteinCalories ∧ a.ketosis = b.ketosis ∧
  a.followedPlan = b.followedPlan ∧ a.notes = b.notes ∧
  a.waterIntake = b.waterIntake ∧ a.foodEntries = b.foodEntries ∧
  a.fatEntries = b.fatEntries ∧ a.vegetableEntries = b.vegetableEntries ∧
  a.activities = b.activities ∧ a.supplements = b.supplements

/-- All DailyLog fields other than activities agree. -/
def eqExceptActivities (a b : DailyLog) : Prop :=
  a.date = b.date ∧ a.proteinGoal = b.proteinGoal ∧
  a.totalProteinCalories = b.totalProteinCalories ∧ a.ketosis = b.ketosis ∧
  a.followedPlan = b.followedPlan ∧ a.notes = b.notes ∧
  a.waterIntake = b.waterIntake ∧ a.foodEntries = b.foodEntries ∧
  a.miscEntries = b.miscEntries ∧ a.fatEntries = b.fatEntries ∧
  a.vegetableEntries = b.vegetableEntries ∧ a.supplements = b.supplements

/-- C10: each add or remove operation changes only the entry sequence it
targets; the date, every scalar field, and the other sequences (including
fatEntries, vegetableEntries and supplements) are unchanged. -/
theorem entry_ops_frame (log : DailyLog) (pe : FoodEntry) (pm : MiscEntry)
    (pa : ActivityEntry) (newId nowTime rid : String) :
    eqExceptFood (savePendingEntry pe log newId nowTime).1 log ∧
    eqExceptFood (removeFoodEntry log rid) log ∧
    eqExceptMisc (savePendingMisc pm log newId nowTime).1 log ∧
    eqExceptMisc (removeMiscEntry log rid) log ∧
    eqExceptActivities (savePendingActivity pa log newId).1 log ∧
    eqExceptActivities (removeActivity log rid) log := by
  refine ⟨?_, ?_, ?_, ?_, ?_, ?_⟩ <;>
    simp only [eqExceptFood, eqExceptMisc, eqExceptActivities,
      savePendingEntry, savePendingMisc, savePendingActivity,
      removeFoodEntry, removeMiscEntry, removeActivity] <;>
    first
    | (split <;> simp)
    | simp

/-- Case analysis on the final stage of startup: the history record for
today wins when present, else the supplied candidate is adopted. -/
theorem initialLoadFinish_cases (hist : List DailyLog) (ini : DailyLog)
    (today : String) :
    (∀ h, hist.find? (fun x => x.date == today) = some h →
        (initialLoadFinish hist ini today).log = h) ∧
    (hist.find? (fun x => x.date == today) = none →
        (initialLoadFinish hist ini today).log = ini) := by
  constructor
  · intro h hfind
    simp only [initialLoadFinish, hfind]
  · intro hfind
    simp only [initialLoadFinish, hfind]

/-- C1: at startup, history > draft > factory default.  When the loaded
history has a record for today it is adopted; otherwise, a parsed draft
whose dateKey equals today is shallow-merged over a fresh factory record
(each draft field overrides its default, absent fields keep their
defaults), and a draft for another date is ignored entirely. -/
theorem startup_precedence (hs : List DailyLog) (d : DraftLog)
    (today : String) :
    (∀ h, hs.find? (fun x => x.date == today) = some h →
        (initialLoad (some (some hs)) (some (some d)) today).log = h) ∧
    (hs.find? (fun x => x.date == today) = none → d.date = some today →
        ((initialLoad (some (some hs)) (some (some d)) today).log.date = today ∧
         (initialLoad (some (some hs)) (some (some d)) today).log.proteinGoal
           = d.proteinGoal.getD "" ∧
         (initialLoad (some (some hs)) (some (some d)) today).log.totalProteinCalories
           = d.totalProteinCalories.getD 0 ∧
         (initialLoad (some (some hs)) (some (some d)) today).log.ketosis
           = d.ketosis.getD false ∧
         (initialLoad (some (some hs)) (some (some d)) today).log.followedPlan
           = d.followedPlan.getD false ∧
         (initialLoad (some (some hs)) (some (some d)) today).log.notes
           = d.notes.getD "" ∧
         (initialLoad (some (some hs)) (some (some d)) today).log.waterIntake
           = d.waterIntake.getD 0 ∧
         (initialLoad (some (some hs)) (some (some d)) today).log.foodEntries
           = d.foodEntries.getD [] ∧
         (initialLoad (some (some hs)) (some (some d)) today).log.miscEntries
           = d.miscEntries.getD [] ∧
         (initialLoad (some (some hs)) (some (some d)) today).log.fatEntries
           = d.fatEntries.getD ["", ""] ∧
         (initialLoad (some (some hs)) (some (some d)) today).log.vegetableEntries
           = d.vegetableEntries.getD ["", ""] ∧
         (initialLoad (some (some hs)) (some (some d)) today).log.activities
           = d.activities.getD [] ∧
         (initialLoad (some (some hs)) (some (some d)) today).log.supplements
           = d.supplements.getD [])) ∧
    (hs.find? (fun x => x.date == today) = none → d.date ≠ some today →
        (initialLoad (some (some hs)) (some (some d)) today).log
          = getInitialLog today) := by
  refine ⟨fun h hfind => ?_, fun hfind hd => ?_, fun hfind hnd => ?_⟩
  · exact (initialLoadFinish_cases hs _ today).1 h hfind
  · have hlog : (initialLoad (some (some hs)) (some (some d)) today).log
        = mergeDraft (getInitialLog today) d := by
      show (initialLoadFinish hs
        (if d.date = some today then mergeDraft (getInitialLog today) d
         else getInitialLog today) today).log = _
      rw [if_pos hd]
      exact (initialLoadFinish_cases hs _ today).2 hfind
    rw [hlog]
    exact ⟨by simp [mergeDraft, hd, getInitialLog], rfl, rfl, rfl, rfl, rfl,
           rfl, rfl, rfl, rfl, rfl, rfl, rfl⟩
  · show (initialLoadFinish hs
      (if d.date = some today then mergeDraft (getInitialLog today) d
       else getInitialLog today) today).log = _
    rw [if_neg hnd]
    exact (initialLoadFinish_cases hs _ today).2 hfind

/-- Witness for C1: history already holds a record for today, so it wins
over a today-dated draft. -/
theorem startup_precedence_witness :
    [getInitialLog "2024-06-15"].find? (fun x => x.date == "2024-06-15")
      = some (getInitialLog "2024-06-15") ∧
    (initialLoad (some (some [getInitialLog "2024-06-15"]))
        (some (some { date := some "2024-06-15", notes := some "draft" }))
        "2024-06-15").log = getInitialLog "2024-06-15" :=
  ⟨by decide,
   (startup_precedence [getInitialLog "2024-06-15"]
      { date := some "2024-06-15", notes := some "draft" } "2024-06-15").1
     (getInitialLog "2024-06-15") (by decide)⟩

/-- C9: the startup load is total: isLoaded always becomes true, and when
the stored text of either slot fails to parse the current record falls
back to a fresh factory record for today. -/
theorem startup_malformed_safe (histSlot : Option (Option (List DailyLog)))
    (draftSlot : Option (Option DraftLog)) (today : String) :
    (initialLoad histSlot draftSlot today).isLoaded = true ∧
    (histSlot = some none ∨ draftSlot = some none →
        (initialLoad histSlot draftSlot today).log = getInitialLog today) := by
  have hfin : ∀ (hist : List DailyLog) (ini : DailyLog),
      (initialLoadFinish hist ini today).isLoaded = true := by
    intro hist ini
    unfold initialLoadFinish
    cases hist.find? (fun x => x.date == today) <;> rfl
  have hafter : ∀ (hist : List DailyLog) (ds : Option (Option DraftLog)),
      (initialLoadAfterHistory hist ds today).isLoaded = true := by
    intro hist ds
    rcases ds with _ | (_ | dd)
    · exact hfin hist _
    · rfl
    · exact hfin hist _
  constructor
  · rcases histSlot with _ | (_ | hs)
    · exact hafter [] draftSlot
    · rfl
    · exact hafter hs draftSlot
  · intro hma
    rcases histSlot with _ | (_ | hs)
    · rcases hma with hma | hma
      · simp at hma
      · subst hma; rfl
    · rfl
    · rcases hma with hma | hma
      · simp at hma
      · subst hma; rfl

/-- Witness for C9: a history slot whose stored text fails to parse still
completes initialization with a fresh record for today. -/
theorem startup_malformed_safe_witness :
    ((some none : Option (Option (List DailyLog))) = some none ∨
      (none : Option (Option DraftLog)) = some none) ∧
    (initialLoad (some none) none "2024-06-15").isLoaded = true ∧
    (initialLoad (some none) none "2024-06-15").log
      = getInitialLog "2024-06-15" :=
  ⟨Or.inl rfl,
   (startup_malformed_safe (some none) none "2024-06-15").1,
   (startup_malformed_safe (some none) none "2024-06-15").2 (Or.inl rfl)⟩

/-- C2: after a mutation fold the history is sorted descending by date
key, keys stay duplicate-free, and the content is exactly the mutated
record together with the previous records for other dates. -/
theorem history_fold_props (prev : List DailyLog) (log : DailyLog)
    (hnd : (prev.map (fun h => h.date)).Nodup) :
    List.Sorted histOrder (foldHistory prev log) ∧
    ((foldHistory prev log).map (fun h => h.date)).Nodup ∧
    List.Perm (foldHistory prev log)
      (log :: prev.filter (fun h => h.date != log.date)) := by
  have hperm : List.Perm (foldHistory prev log)
      (log :: prev.filter (fun h => h.date != log.date)) := by
    unfold foldHistory
    exact List.perm_insertionSort histOrder _
  refine ⟨?_, ?_, hperm⟩
  · unfold foldHistory
    exact List.sorted_insertionSort histOrder _
  · have htarget :
        ((log :: prev.filter (fun h => h.date != log.date)).map
          (fun h => h.date)).Nodup := by
      rw [List.map_cons, List.nodup_cons]
      constructor
      · intro hmem
        simp only [List.mem_map, List.mem_filter, bne_iff_ne, ne_eq] at hmem
        obtain ⟨x, ⟨_, hxf⟩, hxd⟩ := hmem
        exact hxf hxd
      · exact hnd.sublist ((List.filter_sublist prev).map (fun h => h.date))
    exact (hperm.map (fun h => h.date)).nodup_iff.mpr htarget

/-- Witness for C2: folding a record for 2024-01-02 into a two-day
history. -/
theorem history_fold_witness :
    (([getInitialLog "2024-01-01", getInitialLog "2024-01-03"].map
        (fun h => h.date)).Nodup) ∧
    (List.Sorted histOrder
        (foldHistory [getInitialLog "2024-01-01", getInitialLog "2024-01-03"]
          (getInitialLog "2024-01-02")) ∧
     ((foldHistory [getInitialLog "2024-01-01", getInitialLog "2024-01-03"]
          (getInitialLog "2024-01-02")).map (fun h => h.date)).Nodup ∧
     List.Perm
       (foldHistory [getInitialLog "2024-01-01", getInitialLog "2024-01-03"]
         (getInitialLog "2024-01-02"))
       (getInitialLog "2024-01-02" ::
         [getInitialLog "2024-01-01", getInitialLog "2024-01-03"].filter
           (fun h => h.date != (getInitialLog "2024-01-02").date))) :=
  ⟨by decide,
   history_fold_props [getInitialLog "2024-01-01", getInitialLog "2024-01-03"]
     (getInitialLog "2024-01-02") (by decide)⟩

/-- C3: the history-persist guard.  An empty in-memory collection with
non-empty stored content leaves the slot unchanged; a non-empty in-memory
collection, or empty stored content, is written through as a full
overwrite of the slot. -/
theorem history_persist_guard (history : List DailyLog)
    (slot : Option String) :
    (∀ raw, history = [] → slot = some raw → raw ≠ "" → raw ≠ "[]" →
        persistHistory history slot = slot) ∧
    (history ≠ [] →
        persistHistory history slot = some (stringifyHistory history)) ∧
    (slot = none ∨ slot = some "" ∨ slot = some "[]" →
        persistHistory history slot = some (stringifyHistory history)) := by
  refine ⟨?_, ?_, ?_⟩
  · intro raw h1 h2 hne hnb
    subst h1; subst h2
    simp [persistHistory, hne, hnb]
  · intro hne
    have hl : ¬ history.length = 0 := by
      simpa using hne
    simp [persistHistory, hl]
  · intro hcase
    rcases hcase with h | h | h <;> subst h <;> simp [persistHistory]

/-- Witness for C3: the spec's guard scenario, in-memory history empty and
stored content a non-empty serialized array. -/
theorem history_persist_guard_witness :
    (([] : List DailyLog) = [] ∧
     (some "[\x7b\"date\":\"2024-01-01\"\x7d]" : Option String)
       = some "[\x7b\"date\":\"2024-01-01\"\x7d]" ∧
     "[\x7b\"date\":\"2024-01-01\"\x7d]" ≠ "" ∧
     "[\x7b\"date\":\"2024-01-01\"\x7d]" ≠ "[]") ∧
    persistHistory [] (some "[\x7b\"date\":\"2024-01-01\"\x7d]")
      = some "[\x7b\"date\":\"2024-01-01\"\x7d]" :=
  ⟨⟨rfl, rfl, by decide, by decide⟩,
   (history_persist_guard [] (some "[\x7b\"date\":\"2024-01-01\"\x7d]")).1
     "[\x7b\"date\":\"2024-01-01\"\x7d]" rfl rfl (by decide) (by decide)⟩

/-- C4 counterexample: starting from a post-initialization state in which
the automatic fold has already written today's record to the draft slot
(reachable from empty storage), one further mutation of a record for
another date leaves the slot occupied while the last-mutated record's
date key differs from today, refuting the claimed equivalence. -/
theorem draft_slot_iff_counterexample :
    ¬ (((runMutations "2024-06-15"
          (mutateStep "2024-06-15"
            ⟨[], none, getInitialLog "2024-06-15"⟩
            (getInitialLog "2024-06-15"))
          [getInitialLog "2024-06-14"]).draftSlot ≠ none) ↔
        (getInitialLog "2024-06-14").date = "2024-06-15") := by
  decide

/-- C4 amended: every record ever present in the draft slot has dateKey
equal to today (records for other dates are never written), and whenever
the last-mutated record's dateKey equals today the slot contains exactly
that record; since the slot is never cleared, it can still hold an
earlier today-record when the last-mutated record is for another date,
so containment is not equivalent to the last mutation being for today. -/
theorem draft_slot_today_invariant (today : String) (s0 : SessionState)
    (ms : List DailyLog)
    (h0 : ∀ r, s0.draftSlot = some r → r.date = today) :
    (∀ r, (runMutations today s0 ms).draftSlot = some r → r.date = today) ∧
    (∀ m, ms.getLast? = some m → m.date = today →
        (runMutations today s0 ms).draftSlot = some m) := by
  induction ms generalizing s0 with
  | nil =>
      refine ⟨h0, ?_⟩
      intro m hm
      simp at hm
  | cons l ls ih =>
      have h1 : ∀ r, (mutateStep today s0 l).draftSlot = some r →
          r.date = today := by
        intro r hr
        by_cases hl : l.date = today
        · rw [show (mutateStep today s0 l).draftSlot = some l from by
            simp [mutateStep, hl]] at hr
          injection hr with h; subst h; exact hl
        · rw [show (mutateStep today s0 l).draftSlot = s0.draftSlot from by
            simp [mutateStep, hl]] at hr
          exact h0 r hr
      obtain ⟨ihA, ihB⟩ := ih (mutateStep today s0 l) h1
      refine ⟨ihA, ?_⟩
      intro m hm hmt
      cases ls with
      | nil =>
          have hml : l = m := by simpa using hm
          show (mutateStep today s0 l).draftSlot = some m
          simp [mutateStep, hml, hmt]
      | cons l2 ls2 =>
          exact ihB m (by rwa [List.getLast?_cons_cons] at hm) hmt

/-- Witness for C4 (amended): from a clean state, mutating today's record
leaves exactly that record in the draft slot. -/
theorem draft_slot_today_invariant_witness :
    (∀ r : DailyLog,
      (SessionState.mk [] none (getInitialLog "2024-06-15")).draftSlot
        = some r → r.date = "2024-06-15") ∧
    (runMutations "2024-06-15" ⟨[], none, getInitialLog "2024-06-15"⟩
        [getInitialLog "2024-06-15"]).draftSlot
      = some (getInitialLog "2024-06-15") :=
  ⟨fun r hr => by simp at hr,
   (draft_slot_today_invariant "2024-06-15"
      ⟨[], none, getInitialLog "2024-06-15"⟩ [getInitialLog "2024-06-15"]
      (fun r hr => by simp at hr)).2
     (getInitialLog "2024-06-15") rfl rfl⟩
